import Mathlib

/-
Shallow embedding of the extraction pipeline of `data_scrape.py`, the
configuration constants of `config.py`, and the sentiment component of
`Sentiment_analyzer.py` from the e_commerce_analysis repository.

Browser effects are modelled by an explicit `World` describing which DOM
conditions hold (page loads, search box appears, listing appears) and which
raw element handles carry which sub-fields.  A raw handle is modelled by the
optional presence of each sub-field that the code extracts with
`find_element`: `some v` means the sub-element is present with text `v`,
`none` means looking it up raises (caught by the surrounding `except`).
Session lifetime is modelled separately by an event trace (acquire / use /
release per driver), mirroring the order in which `scrape_products` and
`scrape_site` create, use and quit their two drivers.
-/

/-- A raw listing item handle (one `li.product-list-item` element), with the
three sub-elements the listing loop extracts: `h2.product-title` text,
price-block span text, and the product-link `href`. -/
structure RawItem where
  title? : Option String
  price? : Option String
  link? : Option String
deriving DecidableEq

/-- A product record, as the dict built by `scrape_products`: `title`,
`price`, `link` are set when the item is appended; `rating` and
`review_count` exist only when the detail loop's inner `except` branch adds
them (modelled by `Option`: `none` = key absent). -/
structure ProductRecord where
  title : String
  price : String
  link : String
  rating? : Option String
  review_count? : Option String
deriving DecidableEq

/-- The listing loop body (lines 105-120 of `data_scrape.py`): a single
`try` extracts title, then price, then link; if any `find_element` raises,
the `except` hits `continue` and the item is skipped; otherwise the dict
with exactly the three keys is appended. -/
def parseItem (r : RawItem) : Option ProductRecord :=
  match r.title?, r.price?, r.link? with
  | some t, some pr, some l =>
      some { title := t, price := pr, link := l, rating? := none, review_count? := none }
  | _, _, _ => none

/-- The whole listing loop: every found handle is processed, the parseable
ones are appended in order (no cap is applied). -/
def scrapeListing (items : List RawItem) : List ProductRecord :=
  items.filterMap parseItem

/-- A raw review handle (one `li.w-full...` element) with the four
sub-elements the review loop extracts. -/
structure RawReview where
  rating? : Option String
  title? : Option String
  content? : Option String
  posted_by? : Option String
deriving DecidableEq

/-- One extracted review dict, keys as in the source: `rating`, `title`,
`content`, `posted_by`. -/
structure ReviewRecord where
  rating : String
  title : String
  content : String
  posted_by : String
deriving DecidableEq

/-- The per-review body (lines 144-170): each of the four fields has its own
`try`/`except` that falls back to the sentinel `"N/A"`; the dict is always
appended. -/
def extractReview (r : RawReview) : ReviewRecord :=
  { rating := r.rating?.getD "N/A"
    title := r.title?.getD "N/A"
    content := r.content?.getD "N/A"
    posted_by := r.posted_by?.getD "N/A" }

/-- The review loop over all found review handles. -/
def extractReviews (rs : List RawReview) : List ReviewRecord :=
  rs.map extractReview

/-- Outcome of the detail loop body (lines 125-182) for one product.
`navFail`: `driver.get` (or anything before the inner `try`) raises, the
outer `except` prints and `continue`s, the dict is untouched.
`reviewFail`: navigation succeeded but the inner `try` raised - either the
"See All Customer Reviews" wait/click or the heading wait timed out, or
line 142 raised `NameError` because `reviews_container` is never assigned
(its assignment is commented out), so this branch is reached on EVERY
successfully navigated product; the inner `except` sets
`product["rating"] = "N/A"` and `product["review_count"] = "N/A"` and
`continue`s. -/
inductive DetailOutcome where
  | navFail
  | reviewFail
deriving DecidableEq

/-- Effect of one detail-loop iteration on its product dict. -/
def detailStep (p : ProductRecord) : DetailOutcome → ProductRecord
  | .navFail => p
  | .reviewFail => { p with rating? := some "N/A", review_count? := some "N/A" }

/-- The detail loop from position `i` on: each product is visited in order,
its own outcome is applied, and the loop always continues to the next
product (`continue` in both `except` branches). -/
def detailPhaseFrom (env : Nat → DetailOutcome) : Nat → List ProductRecord → List ProductRecord
  | _, [] => []
  | i, p :: ps => detailStep p (env i) :: detailPhaseFrom env (i + 1) ps

/-- The detail loop over the whole product list. -/
def detailPhase (env : Nat → DetailOutcome) (ps : List ProductRecord) : List ProductRecord :=
  detailPhaseFrom env 0 ps

/-- Which DOM conditions hold during one run, and which listing handles the
search yields when it succeeds. -/
structure World where
  pageLoads : Bool
  searchBoxAppears : Bool
  listingAppears : Bool
  items : List RawItem
deriving DecidableEq

/-- `scrape_site` (lines 25-69): navigate, optional consent clicks (their
failures are caught and ignored), wait for the search box, submit the
search, wait for listing items, return them.  Any exception in the `try`
body is caught by the blanket `except`, which logs and returns the empty
list; the `finally` quits the driver in every case. -/
def scrape_site (w : World) : List RawItem :=
  if w.pageLoads && w.searchBoxAppears && w.listingAppears then w.items else []

/-- `scrape_products` (lines 70-200), data part: obtain the handles from
`scrape_site`, run the listing loop, then the detail loop; the resulting
product list is what gets serialized and returned. -/
def scrape_products (w : World) (env : Nat → DetailOutcome) : List ProductRecord :=
  detailPhase env (scrapeListing (scrape_site w))

/-- One serialized record, as `json.dump` writes the dict: insertion order
of the keys is `title`, `price`, `link`, then `rating` and `review_count`
when the detail loop added them.  No code path ever adds a `reviews` key
(the extracted `reviews_data` list is never attached to the product). -/
def serializeProduct (p : ProductRecord) : List (String × String) :=
  [("title", p.title), ("price", p.price), ("link", p.link)]
    ++ (match p.rating? with | some v => [("rating", v)] | none => [])
    ++ (match p.review_count? with | some v => [("review_count", v)] | none => [])

/-- The persisted artifact `data/products_raw.json`: one top-level array
with one serialized record per product (written with `indent=2`,
`ensure_ascii=False`). -/
def runArtifact (w : World) (env : Nat → DetailOutcome) : List (List (String × String)) :=
  (scrape_products w env).map serializeProduct

/-- Pipeline stages that issue commands against a driver session. -/
inductive Stage where
  | load
  | consentClick
  | searchLocate
  | listingLocate
  | parseListing
  | detailNav
deriving DecidableEq

/-- Session lifecycle events: `acquire sid` = `get_driver()` call number
`sid`, `use sid st` = a command sent to that driver's session at stage
`st`, `release sid` = `driver.quit()` on it. -/
inductive SEvent where
  | acquire (sid : Nat)
  | use (sid : Nat) (st : Stage)
  | release (sid : Nat)
deriving DecidableEq

/-- The session events of one `scrape_site` call, which creates driver 1,
drives every pre-listing stage on it, and quits it in `finally` BEFORE the
returned element handles are ever read by the caller. -/
def scrapeSiteTrace (w : World) : List SEvent :=
  [SEvent.acquire 1, SEvent.use 1 Stage.load]
    ++ (if w.pageLoads then
          [SEvent.use 1 Stage.consentClick, SEvent.use 1 Stage.searchLocate]
            ++ (if w.searchBoxAppears then [SEvent.use 1 Stage.listingLocate] else [])
        else [])
    ++ [SEvent.release 1]

/-- The session events of one `scrape_products` run: it first creates its
own driver 0 (line 71), then calls `scrape_site` (driver 1), then the
listing loop calls `find_element` on each returned handle - a command to
driver 1's session, which is already quit - and the detail loop calls
`driver.get` on driver 0 for each appended product; `finally` quits
driver 0. -/
def scrapeProductsTrace (w : World) : List SEvent :=
  [SEvent.acquire 0]
    ++ scrapeSiteTrace w
    ++ (scrape_site w).map (fun _ => SEvent.use 1 Stage.parseListing)
    ++ (scrapeListing (scrape_site w)).map (fun _ => SEvent.use 0 Stage.detailNav)
    ++ [SEvent.release 0]

/-- Is there a `use` event for session `sid` in the trace? -/
def anyUse (sid : Nat) (tr : List SEvent) : Bool :=
  tr.any fun e => match e with | SEvent.use s _ => s = sid | _ => false

/-- Does the trace use session `sid` strictly after having released it? -/
def usedAfterRelease (sid : Nat) : List SEvent → Bool
  | [] => false
  | SEvent.release s :: rest =>
      if s = sid then anyUse sid rest else usedAfterRelease sid rest
  | _ :: rest => usedAfterRelease sid rest

namespace Config

/-- `config.py` line 33. -/
def MAX_PAGES : Nat := 5

/-- `config.py` line 34: maximum total products to collect. -/
def MAX_PRODUCTS : Nat := 50

/-- `config.py` line 35. -/
def MAX_PRODUCTS_DETAIL : Nat := 20

/-- `config.py` line 36: maximum reviews per product. -/
def MAX_REVIEWS_PER_PRODUCT : Nat := 50

end Config

/-- A Python value as `analyze_sentiment` discriminates it: `None`, a
string, or any non-string value (`not isinstance(text, str)`). -/
inductive PyVal where
  | pyNone
  | pyStr (s : String)
  | pyOther
deriving DecidableEq

/-- Whitespace as Python's `str.split()` sees it. -/
def isWs (c : Char) : Bool :=
  c = ' ' || c = '\t' || c = '\n' || c = '\r' || c = '\x0b' || c = '\x0c'

/-- Does the second list start with the first? -/
def listStartsWith : List Char → List Char → Bool
  | [], _ => true
  | _ :: _, [] => false
  | p :: ps, c :: cs => p = c && listStartsWith ps cs

/-- Per-token effect of `re.sub(r'http\S+|www\S+|https\S+', '', text)`:
inside one whitespace-free token, the first position starting `http` (with
at least one further character, matching `\S+`) or `www` (likewise) begins
a match that consumes the rest of the token, so the token is cut there.
(The `https\S+` alternative is subsumed by `http\S+`.) -/
def cutUrl : List Char → List Char
  | [] => []
  | c :: cs =>
      if (listStartsWith ['h', 't', 't', 'p'] (c :: cs) && decide (4 < (c :: cs).length))
          || (listStartsWith ['w', 'w', 'w'] (c :: cs) && decide (3 < (c :: cs).length)) then
        []
      else
        c :: cutUrl cs

/-- `_preprocess_text`: lowercase, remove URL matches, then
`' '.join(text.split())` (split on whitespace, drop empties, re-join with
single spaces).  URL removal is applied per whitespace-token, which agrees
with running the regex on the whole string because a `\S+` match never
crosses whitespace. -/
def preprocess_text (s : String) : String :=
  String.intercalate " "
    (((s.toLower.split isWs).map fun w => String.mk (cutUrl w.toList)).filter fun w => w ≠ "")

/-- `analyze_sentiment`: `None`, the empty string (falsy) and non-strings
return 0.0 at the guard; otherwise the text is cleaned and handed to the
VADER scorer (modelled abstractly, since `nltk` is a third-party library),
whose compound score is returned; any scorer exception is caught and 0.0
returned. -/
def analyze_sentiment (scorer : String → Except Unit ℚ) : PyVal → ℚ
  | PyVal.pyNone => 0
  | PyVal.pyOther => 0
  | PyVal.pyStr s =>
      if s = "" then 0
      else
        match scorer (preprocess_text s) with
        | Except.ok q => q
        | Except.error _ => 0

/-- `get_sentiment_label` (lines 111-126): `score >= 0.05` gives
`'Positive'`, else `score <= -0.05` gives `'Negative'`, else `'Neutral'`. -/
def get_sentiment_label (score : ℚ) : String :=
  if 1 / 20 ≤ score then "Positive"
  else if score ≤ -(1 / 20) then "Negative"
  else "Neutral"

/-- Concrete fully-parseable listing handle used by witnesses. -/
def itemA : RawItem := ⟨some "Laptop A", some "$999.99", some "https://ex.com/a"⟩

/-- Second fully-parseable listing handle. -/
def itemB : RawItem := ⟨some "Laptop B", some "$799.99", some "https://ex.com/b"⟩

/-- A listing handle whose title sub-element is missing. -/
def itemNoTitle : RawItem := ⟨none, some "$549.99", some "https://ex.com/c"⟩

/-- A run in which every pre-listing stage succeeds and two parseable items
are found. -/
def worldAB : World := ⟨true, true, true, [itemA, itemB]⟩

/-- A run in which the search box never appears within its wait budget. -/
def worldNoSearchBox : World := ⟨true, false, true, [itemA]⟩

/-- A fully successful run whose search legitimately finds zero items. -/
def worldEmptySuccess : World := ⟨true, true, true, []⟩

/-- Detail outcomes: item 0 fails navigation, the rest reach the (always
failing) review stage. -/
def envSplit : Nat → DetailOutcome :=
  fun i => if i = 0 then DetailOutcome.navFail else DetailOutcome.reviewFail

/-- Detail outcomes: every item navigates fine and reaches the (always
failing) review stage. -/
def envAllReview : Nat → DetailOutcome := fun _ => DetailOutcome.reviewFail

/-- A review handle whose author sub-element is missing. -/
def rawReviewNoAuthor : RawReview :=
  ⟨some "Rated 5 out of 5 stars", some "Great laptop", some "Fast and light.", none⟩

lemma detailPhaseFrom_length (env : Nat → DetailOutcome) (i : Nat)
    (ps : List ProductRecord) : (detailPhaseFrom env i ps).length = ps.length := by
  induction ps generalizing i with
  | nil => rfl
  | cons p ps ih => simp [detailPhaseFrom, ih]

lemma detailPhaseFrom_getElem? (env : Nat → DetailOutcome) (i : Nat)
    (ps : List ProductRecord) (j : Nat) :
    (detailPhaseFrom env i ps)[j]? = (ps[j]?).map fun p => detailStep p (env (i + j)) := by
  induction ps generalizing i j with
  | nil => simp [detailPhaseFrom]
  | cons p ps ih =>
    cases j with
    | zero => simp [detailPhaseFrom]
    | succ j =>
      have h1 : i + (j + 1) = (i + 1) + j := by omega
      simp only [detailPhaseFrom, List.getElem?_cons_succ, h1]
      exact ih (i + 1) j

lemma mem_detailPhaseFrom {p : ProductRecord} {env : Nat → DetailOutcome} {i : Nat}
    {ps : List ProductRecord} (h : p ∈ detailPhaseFrom env i ps) :
    ∃ q o, q ∈ ps ∧ p = detailStep q o := by
  induction ps generalizing i with
  | nil => simp [detailPhaseFrom] at h
  | cons a ps ih =>
    simp only [detailPhaseFrom, List.mem_cons] at h
    rcases h with h | h
    · exact ⟨a, env i, List.mem_cons_self a ps, h⟩
    · obtain ⟨q, o, hq, hp⟩ := ih h
      exact ⟨q, o, List.mem_cons_of_mem a hq, hp⟩

lemma parseItem_eq_some {r : RawItem} {p : ProductRecord} (h : parseItem r = some p) :
    r.title? = some p.title ∧ r.price? = some p.price ∧ r.link? = some p.link ∧
      p.rating? = none ∧ p.review_count? = none := by
  rcases r with ⟨t, pr, l⟩
  cases t <;> cases pr <;> cases l <;> simp_all [parseItem]
  subst h
  simp

lemma mem_scrapeListing_shape {p : ProductRecord} {items : List RawItem}
    (h : p ∈ scrapeListing items) : p.rating? = none ∧ p.review_count? = none := by
  rcases List.mem_filterMap.mp h with ⟨r, _, hr⟩
  exact ⟨(parseItem_eq_some hr).2.2.2.1, (parseItem_eq_some hr).2.2.2.2⟩

lemma length_scrapeListing (items : List RawItem) :
    (scrapeListing items).length =
      (items.filter fun r => r.title?.isSome && r.price?.isSome && r.link?.isSome).length := by
  induction items with
  | nil => rfl
  | cons r items ih =>
    rcases r with ⟨t, pr, l⟩
    cases t <;> cases pr <;> cases l <;>
      simp [scrapeListing, parseItem, List.filterMap_cons, List.filter_cons] <;>
      simpa [scrapeListing] using ih

lemma reviews_not_mem_keys (p : ProductRecord) :
    "reviews" ∉ (serializeProduct p).map Prod.fst := by
  rcases p with ⟨t, pr, l, r?, rc?⟩
  cases r? <;> cases rc? <;> simp [serializeProduct]

/-- C1: in every run that reaches the listing stage, the detail loop is a
total fold that visits every product: changing the failure outcome of item
`k` alone (detail navigation failing, or the review stage failing) leaves
the record produced for every other index unchanged, the loop still yields
one entry per product (nothing aborts), and item `k` is still present,
carried as its skipped/unfilled record rather than crashing the run. -/
theorem C1_fault_isolation (w : World) (env env' : Nat → DetailOutcome) (k : Nat)
    (h : ∀ j, j ≠ k → env j = env' j) :
    (scrape_products w env).length = (scrapeListing (scrape_site w)).length ∧
    (∀ j, j ≠ k → (scrape_products w env)[j]? = (scrape_products w env')[j]?) ∧
    (∀ hk : k < (scrapeListing (scrape_site w)).length,
      (scrape_products w env)[k]? =
        some (detailStep ((scrapeListing (scrape_site w)).get ⟨k, hk⟩) (env k))) := by
  refine ⟨detailPhaseFrom_length env 0 _, ?_, ?_⟩
  · intro j hj
    simp only [scrape_products, detailPhase, detailPhaseFrom_getElem?, Nat.zero_add]
    rw [h j hj]
  · intro hk
    simp only [scrape_products, detailPhase, detailPhaseFrom_getElem?, Nat.zero_add]
    rw [List.getElem?_eq_getElem hk]
    simp [List.get_eq_getElem]

/-- C1 witness: a concrete two-item run where item 0's detail navigation
fails; the run still has two records and item 1's record equals its record
in the failure-free run. -/
theorem C1_fault_isolation_witness :
    (scrape_products worldAB envSplit).length = 2 ∧
    (scrape_products worldAB envSplit)[1]? = (scrape_products worldAB envAllReview)[1]? := by
  have h := C1_fault_isolation worldAB envSplit envAllReview 0 (by
    intro j hj
    simp [envSplit, envAllReview, hj])
  refine ⟨?_, h.2.1 1 (by decide)⟩
  rw [h.1]
  decide

/-- C2 counterexample: a listing item whose title sub-element is missing is
dropped entirely by the listing loop - it is NOT returned with a sentinel
title, because title, price and link live in one shared `try` whose
`except` skips the whole item. -/
theorem C2_counterexample : scrapeListing [itemNoTitle] = [] := by decide

/-- C2 amended: the three listing fields are extracted together in a single
guarded block, not independently - if any of title, price or link is
missing the whole item is skipped and contributes nothing, and an item is
returned exactly when all three sub-elements are present, carrying their
verbatim values (no listing-stage sentinel exists). -/
theorem C2_amended_listing (items : List RawItem) (r : RawItem) :
    scrapeListing items = items.filterMap parseItem ∧
    ((r.title? = none ∨ r.price? = none ∨ r.link? = none) → parseItem r = none) ∧
    (∀ p, parseItem r = some p →
      r.title? = some p.title ∧ r.price? = some p.price ∧ r.link? = some p.link) := by
  refine ⟨rfl, ?_, ?_⟩
  · intro h
    rcases r with ⟨t, pr, l⟩
    cases t <;> cases pr <;> cases l <;> simp_all [parseItem]
  · intro p hp
    exact ⟨(parseItem_eq_some hp).1, (parseItem_eq_some hp).2.1,
      (parseItem_eq_some hp).2.2.1⟩

/-- C2 amended witness: the title-less item parses to nothing, while the
fully populated item keeps its verbatim title. -/
theorem C2_amended_listing_witness :
    parseItem itemNoTitle = none ∧ itemA.title? = some "Laptop A" := by
  have h := C2_amended_listing [itemA] itemNoTitle
  have h' := C2_amended_listing [itemA] itemA
  exact ⟨h.2.1 (Or.inl rfl),
    (h'.2.2 ⟨"Laptop A", "$999.99", "https://ex.com/a", none, none⟩ rfl).1⟩

/-- C3: each processed review handle yields exactly one review record (none
is ever dropped), its four fields rating/title/content/posted_by fall back
independently to the sentinel "N/A", and in particular a review with a
missing author sub-field is still emitted with `posted_by = "N/A"`. -/
theorem C3_review_fields (rs : List RawReview) (r : RawReview) (h : r ∈ rs) :
    (extractReviews rs).length = rs.length ∧
    extractReview r ∈ extractReviews rs ∧
    (extractReview r).rating = r.rating?.getD "N/A" ∧
    (extractReview r).title = r.title?.getD "N/A" ∧
    (extractReview r).content = r.content?.getD "N/A" ∧
    (extractReview r).posted_by = r.posted_by?.getD "N/A" ∧
    (r.posted_by? = none → (extractReview r).posted_by = "N/A") := by
  refine ⟨by simp [extractReviews], List.mem_map_of_mem _ h, rfl, rfl, rfl, rfl, ?_⟩
  intro hp
  simp [extractReview, hp]

/-- C3 witness: a concrete review handle missing only its author is still
emitted, with `posted_by = "N/A"`. -/
theorem C3_review_fields_witness :
    (extractReviews [rawReviewNoAuthor]).length = 1 ∧
    (extractReview rawReviewNoAuthor).posted_by = "N/A" := by
  have h := C3_review_fields [rawReviewNoAuthor] rawReviewNoAuthor
    (List.mem_cons_self rawReviewNoAuthor [])
  exact ⟨h.1, h.2.2.2.2.2.2 rfl⟩

/-- C4 (code defect, evaluated on a run whose search succeeds with one
parseable item): the session trace shows the listing handles being parsed
against session 1 AFTER `scrape_site`'s `finally` already quit it (so in a
real run every `find_element` raises and every item is skipped), and the
run drives two distinct sessions (driver 0 for detail navigation, driver 1
for search/listing) - not one live session for every stage. -/
theorem C4_session_defect :
    usedAfterRelease 1 (scrapeProductsTrace ⟨true, true, true, [itemA]⟩) = true ∧
    anyUse 0 (scrapeProductsTrace ⟨true, true, true, [itemA]⟩) = true ∧
    anyUse 1 (scrapeProductsTrace ⟨true, true, true, [itemA]⟩) = true := by decide

/-- C5 counterexample: in a fully successful two-item run the serialized
artifact's records carry exactly the keys `title, price, link, rating,
review_count` - there is no `reviews` field at all (the extracted
`reviews_data` is never attached to a product) and no `reviewCount` key
(the code's key is `review_count`), refuting the claim that every record
has all of `title, price, link, rating, reviewCount, reviews[]`. -/
theorem C5_counterexample :
    (runArtifact worldAB envAllReview).map (fun ks => ks.map Prod.fst) =
      [["title", "price", "link", "rating", "review_count"],
       ["title", "price", "link", "rating", "review_count"]] := by decide

/-- C5 amended: every serialized record has `title`, `price`, `link`
(always, from the listing stage); records whose detail navigation succeeded
additionally have `rating` and `review_count`, both always the literal
sentinel "N/A" (the real values are never extracted); no record ever has a
`reviews` key; and the artifact is one top-level array with exactly one
element per product record. -/
theorem C5_amended_record_shape (w : World) (env : Nat → DetailOutcome)
    (p : ProductRecord) (hp : p ∈ scrape_products w env) :
    ((serializeProduct p).map Prod.fst = ["title", "price", "link"] ∨
      (serializeProduct p).map Prod.fst =
        ["title", "price", "link", "rating", "review_count"]) ∧
    "reviews" ∉ (serializeProduct p).map Prod.fst ∧
    (∀ v, ("rating", v) ∈ serializeProduct p → v = "N/A") ∧
    (∀ v, ("review_count", v) ∈ serializeProduct p → v = "N/A") ∧
    (runArtifact w env).length = (scrape_products w env).length := by
  obtain ⟨q, o, hq, rfl⟩ := mem_detailPhaseFrom hp
  obtain ⟨hqr, hqc⟩ := mem_scrapeListing_shape hq
  rcases q with ⟨t, pr, l, r?, rc?⟩
  simp only at hqr hqc
  subst hqr hqc
  refine ⟨?_, ?_, ?_, ?_, by simp [runArtifact]⟩ <;>
    cases o <;> simp [detailStep, serializeProduct]

/-- C5 amended witness: a concrete record of the successful run lacks any
`reviews` key and carries sentinel rating data. -/
theorem C5_amended_record_shape_witness :
    "reviews" ∉
      (serializeProduct
        ⟨"Laptop A", "$999.99", "https://ex.com/a", some "N/A", some "N/A"⟩).map
        Prod.fst := by
  have h := C5_amended_record_shape worldAB envAllReview
    ⟨"Laptop A", "$999.99", "https://ex.com/a", some "N/A", some "N/A"⟩ (by decide)
  exact h.2.1

/-- C6 counterexample: when the search box never appears, `scrape_site`
swallows the timeout and returns the empty list - byte-for-byte the same
caller-visible result as a fully successful search that found zero items,
so no error is surfaced and the run does not end in an aborted state: it
continues, completes, and persists the empty array. -/
theorem C6_counterexample :
    scrape_site worldNoSearchBox = scrape_site worldEmptySuccess ∧
    scrape_products worldNoSearchBox envAllReview =
      scrape_products worldEmptySuccess envAllReview ∧
    runArtifact worldNoSearchBox envAllReview = [] := by decide

/-- C6 amended: when the search box never appears within its wait budget,
the timeout is caught inside `scrape_site`, which logs it and returns the
empty list (no error propagates to the caller, so the caller cannot tell
the failure from a successful zero-item search); the run then continues
normally, produces zero product records, persists an empty but valid
top-level array, and both drivers are still released. -/
theorem C6_amended_search_timeout (w : World) (env : Nat → DetailOutcome)
    (h : w.searchBoxAppears = false) :
    scrape_site w = [] ∧
    scrape_products w env = [] ∧
    runArtifact w env = [] ∧
    SEvent.release 1 ∈ scrapeProductsTrace w ∧
    SEvent.release 0 ∈ scrapeProductsTrace w := by
  have hs : scrape_site w = [] := by simp [scrape_site, h]
  refine ⟨hs, ?_, ?_, ?_, ?_⟩
  · simp [scrape_products, hs, scrapeListing, detailPhase, detailPhaseFrom]
  · simp [runArtifact, scrape_products, hs, scrapeListing, detailPhase, detailPhaseFrom]
  · simp [scrapeProductsTrace, scrapeSiteTrace]
  · simp [scrapeProductsTrace]

/-- C6 amended witness: the concrete no-search-box run returns the empty
handle list and persists the empty array. -/
theorem C6_amended_search_timeout_witness :
    scrape_site worldNoSearchBox = [] ∧
    runArtifact worldNoSearchBox envAllReview = [] := by
  have h := C6_amended_search_timeout worldNoSearchBox envAllReview rfl
  exact ⟨h.1, h.2.2.1⟩

/-- C7 counterexample: a run whose search finds 51 parseable handles
parses and emits all 51 of them, exceeding the configured cap
`Config.MAX_PRODUCTS = 50` - no cap is ever applied by the scraper. -/
theorem C7_counterexample :
    Config.MAX_PRODUCTS <
      (scrape_products ⟨true, true, true, List.replicate 51 itemA⟩ envAllReview).length ∧
    Config.MAX_PRODUCTS = 50 ∧ Config.MAX_REVIEWS_PER_PRODUCT = 50 := by
  refine ⟨?_, rfl, rfl⟩
  have h1 : (scrape_products ⟨true, true, true, List.replicate 51 itemA⟩
      envAllReview).length = 51 := by decide
  rw [h1]
  decide

/-- C7 amended: the scraper applies no cap at all - it parses exactly the
fully-populated handles among ALL found handles (the `Config` caps
`MAX_PRODUCTS` and `MAX_REVIEWS_PER_PRODUCT` exist but are never consumed
by `data_scrape.py`), and every emitted record carries no review list
(zero reviews, trivially within any review cap). -/
theorem C7_amended_no_caps (items : List RawItem) (env : Nat → DetailOutcome) :
    (scrapeListing items).length =
      (items.filter fun r => r.title?.isSome && r.price?.isSome && r.link?.isSome).length ∧
    (∀ p ∈ detailPhase env (scrapeListing items),
      "reviews" ∉ (serializeProduct p).map Prod.fst) := by
  exact ⟨length_scrapeListing items, fun p _ => reviews_not_mem_keys p⟩

/-- C7 amended witness: of two handles (one title-less) exactly one is
parsed, and its emitted record has no reviews key. -/
theorem C7_amended_no_caps_witness :
    (scrapeListing [itemA, itemNoTitle]).length = 1 ∧
    "reviews" ∉
      (serializeProduct
        ⟨"Laptop A", "$999.99", "https://ex.com/a", some "N/A", some "N/A"⟩).map
        Prod.fst := by
  have h := C7_amended_no_caps [itemA, itemNoTitle] envAllReview
  refine ⟨by rw [h.1]; decide, h.2 _ (by decide)⟩

/-- C8: the number of product records emitted is at most the number of
listing handles found (the detail loop is one-to-one on the listing's
parsed products, which are a sub-sequence of the found handles), and every
record survives the detail phase - in particular a record whose review
sequence is empty (every record: no reviews key is ever attached, review
panel absent is not an error) is still emitted. -/
theorem C8_emission (w : World) (env : Nat → DetailOutcome) :
    (scrape_products w env).length = (scrapeListing (scrape_site w)).length ∧
    (scrape_products w env).length ≤ (scrape_site w).length ∧
    (∀ p ∈ scrape_products w env, "reviews" ∉ (serializeProduct p).map Prod.fst) := by
  have hlen := detailPhaseFrom_length env 0 (scrapeListing (scrape_site w))
  refine ⟨hlen, ?_, fun p _ => reviews_not_mem_keys p⟩
  calc (scrape_products w env).length
      = (scrapeListing (scrape_site w)).length := hlen
    _ ≤ (scrape_site w).length := List.length_filterMap_le _ _

/-- C8 witness: the concrete two-item run emits two records from two found
handles, and its first record (with its empty review sequence) is emitted. -/
theorem C8_emission_witness :
    (scrape_products worldAB envAllReview).length ≤ (scrape_site worldAB).length := by
  have h := C8_emission worldAB envAllReview
  exact h.2.1

/-- C9: assuming the external VADER scorer honours its documented contract
(compound scores lie in [-1, 1]; `nltk` is a third-party library, modelled
abstractly), `analyze_sentiment` returns a score in the closed interval
[-1, 1] for every input, and `get_sentiment_label` is a total three-way
labelling with inclusive thresholds at 1/20 = 0.05: "Positive" exactly when
0.05 <= score, "Negative" exactly when score <= -0.05, "Neutral" exactly on
the open band in between - so every score gets exactly one label. -/
theorem C9_sentiment_contract (scorer : String → Except Unit ℚ)
    (hb : ∀ s q, scorer s = Except.ok q → -1 ≤ q ∧ q ≤ 1) (t : PyVal) (x : ℚ) :
    (-1 ≤ analyze_sentiment scorer t ∧ analyze_sentiment scorer t ≤ 1) ∧
    (get_sentiment_label x = "Positive" ∨ get_sentiment_label x = "Negative" ∨
      get_sentiment_label x = "Neutral") ∧
    (get_sentiment_label x = "Positive" ↔ 1 / 20 ≤ x) ∧
    (get_sentiment_label x = "Negative" ↔ x ≤ -(1 / 20)) ∧
    (get_sentiment_label x = "Neutral" ↔ -(1 / 20) < x ∧ x < 1 / 20) := by
  constructor
  · cases t with
    | pyNone => norm_num [analyze_sentiment]
    | pyOther => norm_num [analyze_sentiment]
    | pyStr s =>
      by_cases hs : s = ""
      · simp [analyze_sentiment, hs]
      · rcases hsc : scorer (preprocess_text s) with e | q
        · simp [analyze_sentiment, hs, hsc]
        · have hq := hb _ q hsc
          have hval : analyze_sentiment scorer (PyVal.pyStr s) = q := by
            simp [analyze_sentiment, hs, hsc]
          rw [hval]
          exact hq
  · by_cases h1 : (1 : ℚ) / 20 ≤ x
    · have hl : get_sentiment_label x = "Positive" := by
        unfold get_sentiment_label
        rw [if_pos h1]
      have h2 : ¬x ≤ -(1 / 20) := by linarith
      refine ⟨Or.inl hl, ?_, ?_, ?_⟩
      · rw [hl]
        exact iff_of_true rfl h1
      · rw [hl]
        exact iff_of_false (by decide) h2
      · rw [hl]
        exact iff_of_false (by decide) fun hband => absurd hband.2 (by linarith)
    · by_cases h2 : x ≤ -(1 / 20)
      · have hl : get_sentiment_label x = "Negative" := by
          unfold get_sentiment_label
          rw [if_neg h1, if_pos h2]
        refine ⟨Or.inr (Or.inl hl), ?_, ?_, ?_⟩
        · rw [hl]
          exact iff_of_false (by decide) h1
        · rw [hl]
          exact iff_of_true rfl h2
        · rw [hl]
          exact iff_of_false (by decide) fun hband => absurd hband.1 (by linarith)
      · have hl : get_sentiment_label x = "Neutral" := by
          unfold get_sentiment_label
          rw [if_neg h1, if_neg h2]
        refine ⟨Or.inr (Or.inr hl), ?_, ?_, ?_⟩
        · rw [hl]
          exact iff_of_false (by decide) h1
        · rw [hl]
          exact iff_of_false (by decide) h2
        · rw [hl]
          exact iff_of_true rfl ⟨by linarith, by linarith⟩

/-- C9 witness: a concrete bounded scorer on a concrete text yields a score
inside [-1, 1], and the concrete score 1/2 is labelled "Positive". -/
theorem C9_sentiment_contract_witness :
    (-1 ≤ analyze_sentiment (fun _ => Except.ok (7 / 10)) (PyVal.pyStr "Great laptop") ∧
      analyze_sentiment (fun _ => Except.ok (7 / 10)) (PyVal.pyStr "Great laptop") ≤ 1) ∧
    get_sentiment_label (1 / 2) = "Positive" := by
  have h := C9_sentiment_contract (fun _ => Except.ok (7 / 10))
    (by
      intro s q hq
      injection hq with hq
      subst hq
      constructor <;> norm_num)
    (PyVal.pyStr "Great laptop") (1 / 2)
  exact ⟨h.1, (h.2.2.1).mpr (by norm_num)⟩

/-- C10: `analyze_sentiment` is a total function (modelling that it never
raises): `None`, the empty string and every non-string input return exactly
0, and on any other string whose scoring raises, the exception is caught
and 0 is returned instead of propagating. -/
theorem C10_sentiment_total_fallback (scorer : String → Except Unit ℚ) (s : String) :
    analyze_sentiment scorer PyVal.pyNone = 0 ∧
    analyze_sentiment scorer (PyVal.pyStr "") = 0 ∧
    analyze_sentiment scorer PyVal.pyOther = 0 ∧
    (scorer (preprocess_text s) = Except.error () →
      analyze_sentiment scorer (PyVal.pyStr s) = 0) := by
  refine ⟨rfl, by simp [analyze_sentiment], rfl, ?_⟩
  intro h
  by_cases hs : s = ""
  · simp [analyze_sentiment, hs]
  · simp [analyze_sentiment, hs, h]

/-- C10 witness: with a scorer that always fails, a concrete non-empty
string and `None` both map to 0. -/
theorem C10_sentiment_total_fallback_witness :
    analyze_sentiment (fun _ => Except.error ()) (PyVal.pyStr "Terrible, broken!") = 0 ∧
    analyze_sentiment (fun _ => Except.error ()) PyVal.pyNone = 0 := by
  have h := C10_sentiment_total_fallback (fun _ => Except.error ()) "Terrible, broken!"
  exact ⟨h.2.2.2 rfl, h.1⟩
